import Mathlib

/-!
Shallow embedding of `scrape_bospop_faq.py`: the FAQ scraping, cleaning,
caching and session-refresh logic of the Bospop FAQ generator.
-/

namespace BospopFaq

/-- ASCII whitespace recognised by Python `str.strip` and by the regex `\s`
on ASCII input: space, tab, newline, carriage return, vertical tab, form feed. -/
def isPyWs (c : Char) : Bool :=
  c = ' ' || c = '\t' || c = '\n' || c = '\r' || c = '\x0b' || c = '\x0c'

/-- Python `str.strip()`: remove leading and trailing whitespace. -/
def pyStrip (s : String) : String :=
  String.mk (((s.toList.dropWhile isPyWs).reverse.dropWhile isPyWs).reverse)

/-- Helper for `re.sub` of one-or-more whitespace by a single space: the flag
records whether the previous character belonged to a whitespace run. -/
def collapseWsAux : Bool → List Char → List Char
  | _, [] => []
  | inRun, c :: rest =>
    if isPyWs c then
      if inRun then collapseWsAux true rest
      else ' ' :: collapseWsAux true rest
    else c :: collapseWsAux false rest

/-- `df[col].str.replace(regex of whitespace runs, single space)`: every maximal
run of whitespace characters becomes one ASCII space. -/
def pyCollapseWs (s : String) : String :=
  String.mk (collapseWsAux false s.toList)

/-- The per-column normalisation at lines 96-98 of the source:
`.str.strip()` followed by the whitespace-run replacement. -/
def normField (s : String) : String := pyCollapseWs (pyStrip s)

/-- One row of the scraped DataFrame: Category, Question, Answer. -/
structure RawRecord where
  category : String
  question : String
  answer : String
deriving DecidableEq, Repr

/-- Apply the column normalisation to all three fields of a row. -/
def normRecord (r : RawRecord) : RawRecord :=
  ⟨normField r.category, normField r.question, normField r.answer⟩

/-- `df.dropna(subset=[Question, Answer])` removes rows whose Question or Answer
cell is missing (NaN/None).  Every value appended during extraction is a Python
`str`, so no cell is ever missing and the call keeps every row. -/
def dropnaQA (rs : List RawRecord) : List RawRecord := rs

/-- Helper for `df.drop_duplicates()`: keep a row iff its full tuple has not
been seen before. -/
def dropDuplicatesAux (seen : List RawRecord) : List RawRecord → List RawRecord
  | [] => []
  | r :: rest =>
    if seen.contains r then dropDuplicatesAux seen rest
    else r :: dropDuplicatesAux (r :: seen) rest

/-- `df.drop_duplicates()`: remove duplicate rows under full-tuple equality,
keeping the first occurrence, preserving order (line 94 of the source). -/
def dropDuplicates (rs : List RawRecord) : List RawRecord := dropDuplicatesAux [] rs

/-- Lines 91-98 of the source: `dropna` on Question/Answer, then
`drop_duplicates`, then per-column strip and whitespace collapse.
Note the order: duplicates are removed before whitespace normalisation. -/
def cleanRecords (rs : List RawRecord) : List RawRecord :=
  (dropDuplicates (dropnaQA rs)).map normRecord

/-- A parsed markup node: an element with a tag, CSS classes and children,
or a text node. -/
inductive Node where
  | text (s : String)
  | elem (tag : String) (classes : List String) (children : List Node)
deriving Repr

mutual

/-- Document order: a node followed by its descendants in pre-order.
BeautifulSoup's `find_next` and `find_all` both traverse this order. -/
def Node.preorder : Node → List Node
  | .text s => [.text s]
  | .elem t cs ch => .elem t cs ch :: preorderForest ch

/-- Pre-order listing of a forest of sibling nodes. -/
def preorderForest : List Node → List Node
  | [] => []
  | n :: rest => Node.preorder n ++ preorderForest rest

end

mutual

/-- BeautifulSoup `.text`: concatenation of all descendant strings. -/
def Node.rawText : Node → String
  | .text s => s
  | .elem _ _ ch => rawTextForest ch

/-- Concatenation of all strings of a forest, in order. -/
def rawTextForest : List Node → String
  | [] => ""
  | n :: rest => Node.rawText n ++ rawTextForest rest

end

mutual

/-- BeautifulSoup `get_text(strip=True)`: concatenation of the individually
stripped descendant strings. -/
def Node.strippedText : Node → String
  | .text s => pyStrip s
  | .elem _ _ ch => strippedTextForest ch

/-- Concatenation of stripped strings of a forest, in order. -/
def strippedTextForest : List Node → String
  | [] => ""
  | n :: rest => Node.strippedText n ++ strippedTextForest rest

end

/-- All descendants of a node in document order (the node itself excluded),
the order searched by `find` and `find_all` on that node. -/
def Node.descendants : Node → List Node
  | .text _ => []
  | .elem _ _ ch => preorderForest ch

/-- BeautifulSoup tag-plus-class match: `find(tag, class_=cls)` matches an
element with that tag whose class list contains `cls`. -/
def matchesTagClass (tag cls : String) (n : Node) : Bool :=
  match n with
  | .elem t cs _ => t == tag && cs.contains cls
  | .text _ => false

/-- `h2` with class `elementor-heading-title` (line 64). -/
def isCategoryHeading : Node → Bool := matchesTagClass "h2" "elementor-heading-title"

/-- `div` with class `jupiterx-advanced-accordion-wrapper` (line 70). -/
def isAccordionWrapper : Node → Bool :=
  matchesTagClass "div" "jupiterx-advanced-accordion-wrapper"

/-- `div` with class `jupiterx-single-advanced-accordion-wrapper` (line 73). -/
def isAccordionItem : Node → Bool :=
  matchesTagClass "div" "jupiterx-single-advanced-accordion-wrapper"

/-- `span` with class `jx-ac-title` (line 77). -/
def isAcTitle : Node → Bool := matchesTagClass "span" "jx-ac-title"

/-- `div` with class `jupiterx-ac-content-is-editor` (line 80). -/
def isAcContent : Node → Bool := matchesTagClass "div" "jupiterx-ac-content-is-editor"

/-- Lines 75-89 of the source, one accordion item.  `find` returns the first
matching descendant.  When `find` of the title span yields no node, Python
raises `AttributeError` on `.text`; this is modelled as `none`.  A missing
content `div` yields the empty-string answer (lines 80-84). -/
def extractItem (item : Node) : Option (String × String) :=
  match (item.descendants.filter isAcTitle).head? with
  | none => none
  | some t =>
    let question := pyStrip t.rawText
    let answer :=
      match (item.descendants.filter isAcContent).head? with
      | some d => d.strippedText
      | none => ""
    some (question, answer)

/-- The items iterated for the heading at position `i` of the pre-order
listing `pre`: `find_next` scans every node strictly after the heading in
document order (not bounded by the next heading) for the first accordion
wrapper; if found, `find_all` collects its accordion-item descendants
(lines 70-73). -/
def headingItems (pre : List Node) (i : Nat) : List Node :=
  match ((pre.drop (i + 1)).filter isAccordionWrapper).head? with
  | none => []
  | some container => container.descendants.filter isAccordionItem

/-- A Python `for` loop whose body may raise: the first exception aborts the
whole traversal and propagates. -/
def mapME (f : α → Except ε β) : List α → Except ε (List β)
  | [] => .ok []
  | a :: as =>
    match f a with
    | .error e => .error e
    | .ok b =>
      match mapME f as with
      | .error e => .error e
      | .ok bs => .ok (b :: bs)

/-- The loop body for one category heading (lines 66-89): strip the heading
text for the category, then extract every item of its accordion container.
An `AttributeError` raised inside (missing title span) propagates. -/
def extractHeading (pre : List Node) (i : Nat) (h : Node) : Except Unit (List RawRecord) :=
  let category := pyStrip h.rawText
  mapME
    (fun item =>
      match extractItem item with
      | none => Except.error ()
      | some qa => Except.ok ⟨category, qa.1, qa.2⟩)
    (headingItems pre i)

/-- `soup.find_all` of the category headings (line 64): every matching node of
the parsed document in pre-order, paired with its document-order position. -/
def headingEntries (doc : List Node) : List (Nat × Node) :=
  (preorderForest doc).enum.filter fun p => isCategoryHeading p.2

/-- Lines 63-89: `find_all` of the category headings over the whole parsed
document in pre-order, then the per-heading loop; rows accumulate across
headings in order.  An exception anywhere aborts everything. -/
def extractAll (doc : List Node) : Except Unit (List RawRecord) :=
  match mapME (fun p => extractHeading (preorderForest doc) p.1 p.2)
      (headingEntries doc) with
  | .error e => .error e
  | .ok recss => .ok recss.flatten

/-- Outcome of `requests.get(URL, headers=HEADERS, timeout=10)`: a completed
HTTP exchange with its final status code and parsed body, or a timeout, or a
connection error (both `RequestException`s). -/
inductive FetchOutcome where
  | completed (status : Nat) (doc : List Node)
  | timeout
  | connError

/-- `response.raise_for_status()` raises `HTTPError` exactly for client and
server error codes, 400-599. -/
def raiseForStatus (status : Nat) : Bool :=
  decide (400 ≤ status) && decide (status < 600)

/-- `scrape_bospop_faq` (lines 45-108): fetch, parse, extract, clean.
`requests.exceptions.RequestException` (timeout, connection error, or the
`raise_for_status` `HTTPError`) is caught and yields `None`; any other
exception (e.g. the `AttributeError` of a missing title span) is caught by
the second handler and also yields `None`. -/
def scrape_bospop_faq (outcome : FetchOutcome) : Option (List RawRecord) :=
  match outcome with
  | .timeout => none
  | .connError => none
  | .completed status doc =>
    if raiseForStatus status then none
    else
      match extractAll doc with
      | .error _ => none
      | .ok raw => some (cleanRecords raw)

/-- The JSON document written by `save_data_to_file`: the record array under
`faq_data` and the timestamp under `last_update` (lines 155-158). -/
structure CacheFile where
  faq_data : List RawRecord
  last_update : String
deriving DecidableEq, Repr

/-- The state of `data/faq_cache.json` as `load_data_from_file` can find it:
absent, present but unreadable or not parseable as the expected structure,
or a well-formed cache document. -/
inductive FileState where
  | absent
  | corrupt (content : String)
  | valid (file : CacheFile)
deriving Repr

/-- `load_data_from_file` (lines 167-177): a missing file falls through to
`(None, None)`; any exception while reading, JSON-parsing or rebuilding the
DataFrame is caught, logged and falls through to `(None, None)`; a
well-formed file yields its records and timestamp. -/
def load_data_from_file : FileState → Option (List RawRecord) × Option String
  | .absent => (none, none)
  | .corrupt _ => (none, none)
  | .valid f => (some f.faq_data, some f.last_update)

/-- Whether the directory creation and file write of `save_data_to_file`
succeed, or fail with some I/O exception. -/
inductive WriteOutcome where
  | ok
  | ioError (msg : String)

/-- `save_data_to_file` (lines 150-165): on success the cache file holds the
records and timestamp; on any exception the handler logs and then re-raises
(`raise` at line 165), so the exception propagates to the caller. -/
def save_data_to_file (df : List RawRecord) (timestamp : String) :
    WriteOutcome → Except String FileState
  | .ok => .ok (.valid ⟨df, timestamp⟩)
  | .ioError e => .error e

/-- The two session-state variables `st.session_state.faq_data` and
`st.session_state.last_update`. -/
structure SessionState where
  faq_data : Option (List RawRecord)
  last_update : Option String
deriving DecidableEq, Repr

/-- `initialize_session_state` (lines 179-194).  `already` is the session
state when both keys are present, `none` when initialization must run;
`scraped` is what `scrape_bospop_faq` would return and `now` the formatted
current time.  A save failure is re-raised out of the function. -/
def initialize_session_state (already : Option SessionState) (file : FileState)
    (scraped : Option (List RawRecord)) (now : String) (w : WriteOutcome) :
    Except String (SessionState × FileState) :=
  match already with
  | some s => .ok (s, file)
  | none =>
    match load_data_from_file file with
    | (some df, some ts) => .ok (⟨some df, some ts⟩, file)
    | _ =>
      match scraped with
      | none => .ok (⟨none, some now⟩, file)
      | some df =>
        match save_data_to_file df now w with
        | .ok fs => .ok (⟨some df, some now⟩, fs)
        | .error e => .error e

/-- The session state together with the cache file on disk. -/
structure AppState where
  session : SessionState
  file : FileState

/-- The refresh button handler, lines 210-225 of `main`: when the scrape
returns `None` or an empty frame, only an error message is shown and nothing
is touched; otherwise the new data is saved and the session state replaced.
A save exception is caught by the surrounding handler (line 227) after
nothing has been updated yet. -/
def refreshAction (st : AppState) (scraped : Option (List RawRecord)) (now : String)
    (w : WriteOutcome) : AppState :=
  match scraped with
  | none => st
  | some df =>
    if df.length = 0 then st
    else
      match save_data_to_file df now w with
      | .ok fs => ⟨⟨some df, some now⟩, fs⟩
      | .error _ => st

/-! Concrete markup fixtures used by the counterexamples and witnesses. -/

/-- A question title span as found on the FAQ page. -/
def titleSpan (q : String) : Node := .elem "span" ["jx-ac-title"] [.text q]

/-- An answer content block as found on the FAQ page. -/
def contentDiv (a : String) : Node :=
  .elem "div" ["jupiterx-ac-content-is-editor"] [.text a]

/-- A complete accordion item with title and content. -/
def faqItem (q a : String) : Node :=
  .elem "div" ["jupiterx-single-advanced-accordion-wrapper"] [titleSpan q, contentDiv a]

/-- A category heading node. -/
def catHeading (c : String) : Node := .elem "h2" ["elementor-heading-title"] [.text c]

/-- An accordion item whose title span is missing (only content present). -/
def badItem : Node :=
  .elem "div" ["jupiterx-single-advanced-accordion-wrapper"] [contentDiv "A2"]

/-- An accordion item with a title span but no content node. -/
def noContentItem : Node :=
  .elem "div" ["jupiterx-single-advanced-accordion-wrapper"] [titleSpan "Q"]

/-- One category whose accordion holds a well-formed item followed by an item
with no title span. -/
def cexDoc3 : List Node :=
  [catHeading "Tickets",
   .elem "div" ["jupiterx-advanced-accordion-wrapper"] [faqItem "Q1" "A1", badItem]]

/-- Two category headings followed by a single accordion container: the
container sits after the second heading, so a next-heading-bounded scan would
give the first category zero records. -/
def cexDoc4 : List Node :=
  [catHeading "A", catHeading "B",
   .elem "div" ["jupiterx-advanced-accordion-wrapper"] [faqItem "Q1" "Ans1"]]

/-! Helper lemmas. -/

/-- If a loop with exception propagation completed, every iteration
completed. -/
theorem mapME_ok_mem {α β ε : Type _} {f : α → Except ε β} {l : List α}
    {ys : List β} (hok : mapME f l = Except.ok ys) {a : α} (ha : a ∈ l) :
    ∃ b, f a = Except.ok b := by
  induction l generalizing ys with
  | nil => cases ha
  | cons x xs ih =>
    rw [mapME] at hok
    cases hfx : f x with
    | error e => rw [hfx] at hok; cases hok
    | ok b =>
      rw [hfx] at hok
      cases hrest : mapME f xs with
      | error e => rw [hrest] at hok; cases hok
      | ok bs =>
        cases ha with
        | head => exact ⟨b, hfx⟩
        | tail _ hmem => exact ih hrest hmem

/-- Every element of the input is either in the seen set or survives
`drop_duplicates`. -/
theorem mem_dropDuplicatesAux (seen rs : List RawRecord) (r : RawRecord)
    (h : r ∈ rs) : r ∈ seen ∨ r ∈ dropDuplicatesAux seen rs := by
  induction rs generalizing seen with
  | nil => cases h
  | cons a rest ih =>
    rw [dropDuplicatesAux]
    cases hc : seen.contains a with
    | true =>
      rw [if_pos rfl]
      cases h with
      | head => left; simpa using hc
      | tail _ hm => exact ih seen hm
    | false =>
      rw [if_neg (by simp)]
      cases h with
      | head => right; exact List.mem_cons_self _ _
      | tail _ hm =>
        rcases ih (a :: seen) hm with hs | hd
        · cases hs with
          | head => right; exact List.mem_cons_self _ _
          | tail _ hss => left; exact hss
        · right; exact List.mem_cons_of_mem _ hd

/-- What `drop_duplicates` keeps was not already seen. -/
theorem not_mem_seen_dropDuplicatesAux (seen rs : List RawRecord) (r : RawRecord)
    (h : r ∈ dropDuplicatesAux seen rs) : r ∉ seen := by
  induction rs generalizing seen with
  | nil => rw [dropDuplicatesAux] at h; cases h
  | cons a rest ih =>
    rw [dropDuplicatesAux] at h
    cases hc : seen.contains a with
    | true => rw [hc, if_pos rfl] at h; exact ih seen h
    | false =>
      rw [hc, if_neg (by simp)] at h
      cases h with
      | head =>
        intro hmem
        have : seen.contains r = true := by simpa using hmem
        rw [this] at hc; cases hc
      | tail _ hd =>
        intro hmem
        exact ih (a :: seen) hd (List.mem_cons_of_mem _ hmem)

/-- `drop_duplicates` leaves no duplicate rows. -/
theorem nodup_dropDuplicatesAux (seen rs : List RawRecord) :
    (dropDuplicatesAux seen rs).Nodup := by
  induction rs generalizing seen with
  | nil => rw [dropDuplicatesAux]; exact List.nodup_nil
  | cons a rest ih =>
    rw [dropDuplicatesAux]
    cases hc : seen.contains a with
    | true => rw [if_pos rfl]; exact ih seen
    | false =>
      rw [if_neg (by simp)]
      refine List.nodup_cons.mpr ⟨?_, ih (a :: seen)⟩
      intro hmem
      exact not_mem_seen_dropDuplicatesAux _ _ _ hmem (List.mem_cons_self _ _)

/-- `drop_duplicates` keeps rows in their original order. -/
theorem sublist_dropDuplicatesAux (seen rs : List RawRecord) :
    (dropDuplicatesAux seen rs).Sublist rs := by
  induction rs generalizing seen with
  | nil => rw [dropDuplicatesAux]
  | cons a rest ih =>
    rw [dropDuplicatesAux]
    cases hc : seen.contains a with
    | true => rw [if_pos rfl]; exact (ih seen).cons a
    | false => rw [if_neg (by simp)]; exact (ih (a :: seen)).cons₂ a

/-! Claim theorems. -/

/-- Claim C1, counterexample: the cleaning of lines 91-98 keeps a record whose
answer is the empty string, so the output is not free of records with an
empty question or answer. -/
theorem C1_empty_answer_kept_cex :
    cleanRecords [⟨"Tickets", "Hoe laat?", ""⟩] = [⟨"Tickets", "Hoe laat?", ""⟩] ∧
    (⟨"Tickets", "Hoe laat?", ""⟩ : RawRecord).answer = "" :=
  ⟨by decide, rfl⟩

/-- Claim C1, amended: the cleaning step drops no record for being empty —
`dropna` removes only missing (NaN) cells, which never occur since every
extracted field is a string — so every input record, with empty question or
answer included, reaches the output in normalised form. -/
theorem C1_no_record_dropped (rs : List RawRecord) (r : RawRecord) (h : r ∈ rs) :
    normRecord r ∈ cleanRecords rs := by
  unfold cleanRecords dropDuplicates dropnaQA
  rcases mem_dropDuplicatesAux [] rs r h with hs | hm
  · cases hs
  · exact List.mem_map_of_mem _ hm

/-- Claim C1, witness: a record with an empty answer reaches the output. -/
theorem C1_no_record_dropped_witness :
    normRecord ⟨"Tickets", "Hoe laat?", ""⟩ ∈
      cleanRecords [⟨"Tickets", "Hoe laat?", ""⟩] :=
  C1_no_record_dropped _ _ (by decide)

/-- Claim C2, counterexample: two rows differing only by extra whitespace are
distinct when `drop_duplicates` runs (it runs before whitespace
normalisation), so both survive and then normalise to the same record: the
output holds two fully identical records, and a second application of the
cleaning removes one of them, so the cleaning is not idempotent. -/
theorem C2_duplicates_survive_cex :
    cleanRecords
        [⟨"Tickets", "Wanneer gaan de deuren open?", "Om 10:00."⟩,
         ⟨"Tickets", "Wanneer  gaan de deuren open?", "Om 10:00."⟩] =
      [⟨"Tickets", "Wanneer gaan de deuren open?", "Om 10:00."⟩,
       ⟨"Tickets", "Wanneer gaan de deuren open?", "Om 10:00."⟩] ∧
    cleanRecords (cleanRecords
        [⟨"Tickets", "Wanneer gaan de deuren open?", "Om 10:00."⟩,
         ⟨"Tickets", "Wanneer  gaan de deuren open?", "Om 10:00."⟩]) ≠
      cleanRecords
        [⟨"Tickets", "Wanneer gaan de deuren open?", "Om 10:00."⟩,
         ⟨"Tickets", "Wanneer  gaan de deuren open?", "Om 10:00."⟩] :=
  ⟨by decide, by decide⟩

/-- Claim C2, amended: duplicates are removed under full-tuple equality of the
raw, pre-normalisation rows, keeping the first occurrence in input order (the
kept rows are a duplicate-free sublist of the input), and the output is the
per-field whitespace normalisation of exactly those kept rows; duplicates
created by that later normalisation are not removed. -/
theorem C2_dedup_raw_rows (rs : List RawRecord) :
    (dropDuplicates rs).Nodup ∧ (dropDuplicates rs).Sublist rs ∧
    cleanRecords rs = (dropDuplicates rs).map normRecord :=
  ⟨nodup_dropDuplicatesAux [] rs, sublist_dropDuplicatesAux [] rs, rfl⟩

/-- Claim C3, counterexample: one category whose accordion holds a well-formed
item and an item with no title span.  The claim predicts the well-formed
item's record is still produced; the code raises `AttributeError` on the bad
item and the catch-all handler makes the whole scrape return `None`. -/
theorem C3_missing_title_kills_scrape_cex :
    scrape_bospop_faq (.completed 200 cexDoc3) = none ∧
    extractItem (faqItem "Q1" "A1") = some ("Q1", "A1") :=
  ⟨by decide, by decide⟩

/-- Claim C3, amended: when any accordion item reached by the extraction loop
has no title-marked child, the `AttributeError` propagates and the whole
scrape returns `None` for any completed fetch, rather than skipping only that
item and keeping the others. -/
theorem C3_missing_title_aborts (doc : List Node) (i j : Nat) (h item : Node)
    (hh : (preorderForest doc)[i]? = some h)
    (hcat : isCategoryHeading h = true)
    (hit : (headingItems (preorderForest doc) i)[j]? = some item)
    (htitle : item.descendants.filter isAcTitle = [])
    (status : Nat) :
    scrape_bospop_faq (.completed status doc) = none := by
  have hex : extractAll doc = Except.error () := by
    cases hm : mapME (fun p => extractHeading (preorderForest doc) p.1 p.2)
        (headingEntries doc) with
    | error e => cases e; unfold extractAll; rw [hm]
    | ok ys =>
      exfalso
      have henum : (i, h) ∈ (preorderForest doc).enum :=
        List.mk_mem_enum_iff_getElem?.mpr hh
      have hhead : (i, h) ∈ headingEntries doc := by
        unfold headingEntries
        exact List.mem_filter.mpr ⟨henum, hcat⟩
      obtain ⟨rs, hrs⟩ := mapME_ok_mem hm hhead
      unfold extractHeading at hrs
      have hitem : item ∈ headingItems (preorderForest doc) i := List.getElem?_mem hit
      obtain ⟨b, hb⟩ := mapME_ok_mem hrs hitem
      have hnone : extractItem item = none := by
        unfold extractItem
        rw [htitle]
        rfl
      rw [hnone] at hb
      cases hb
  simp only [scrape_bospop_faq, hex]
  cases hr : raiseForStatus status with
  | true => rw [if_pos rfl]
  | false => rw [if_neg (by simp)]

/-- Claim C3, witness: the amended theorem at the concrete document. -/
theorem C3_missing_title_aborts_witness :
    scrape_bospop_faq (.completed 200 cexDoc3) = none :=
  C3_missing_title_aborts cexDoc3 0 1 (catHeading "Tickets") badItem rfl rfl rfl rfl 200

/-- Claim C4, counterexample: two headings and a single accordion container
placed after the second heading.  The claim predicts the first heading yields
zero records; `find_next` is unbounded, so the first heading also claims the
container and its item is attributed to both categories. -/
theorem C4_scan_not_bounded_cex :
    scrape_bospop_faq (.completed 200 cexDoc4) =
      some [⟨"A", "Q1", "Ans1"⟩, ⟨"B", "Q1", "Ans1"⟩] := by decide

/-- Claim C4, amended: the forward scan for a category's accordion container
is bounded only by end of document, not by the next category heading — a
heading takes the nearest following container even when that container
follows a later heading; a heading with no accordion container anywhere
after it in the document yields zero records. -/
theorem C4_no_wrapper_after_heading_zero (pre : List Node) (i : Nat) (h : Node)
    (hnone : (pre.drop (i + 1)).filter isAccordionWrapper = []) :
    extractHeading pre i h = Except.ok [] := by
  simp only [extractHeading, headingItems, hnone]
  rfl

/-- Claim C4, witness: a lone heading with nothing after it yields no
records. -/
theorem C4_no_wrapper_after_heading_zero_witness :
    extractHeading (preorderForest [catHeading "A"]) 0 (catHeading "A") =
      Except.ok [] :=
  C4_no_wrapper_after_heading_zero (preorderForest [catHeading "A"]) 0
    (catHeading "A") rfl

/-- Claim C5: saving a snapshot to the cache file and loading it back returns
identical records in identical order and the identical timestamp. -/
theorem C5_save_load_roundtrip (df : List RawRecord) (ts : String) :
    (save_data_to_file df ts .ok).map load_data_from_file =
      Except.ok (some df, some ts) := rfl

/-- Claim C6: an absent cache file and any unreadable or unparseable cache
file both make `load_data_from_file` return the no-data pair; the exception
handler swallows every failure, so the function never raises. -/
theorem C6_load_no_data :
    load_data_from_file .absent = (none, none) ∧
    ∀ content, load_data_from_file (.corrupt content) = (none, none) :=
  ⟨rfl, fun _ => rfl⟩

/-- Claim C7, counterexample: a completed response with the non-2xx status 304
does not raise in `raise_for_status` (only 400-599 raise); with an empty body
the scrape returns an empty record set, not `None`. -/
theorem C7_non2xx_not_failure_cex :
    scrape_bospop_faq (.completed 304 []) = some [] ∧
    some ([] : List RawRecord) ≠ (none : Option (List RawRecord)) :=
  ⟨by decide, by decide⟩

/-- Claim C7, amended: a timeout, a connection error, or a completed response
with a 4xx/5xx status — exactly the statuses `raise_for_status` raises for —
each make `scrape_bospop_faq` return `None`; other non-2xx statuses proceed to
extraction instead. -/
theorem C7_fetch_failure_none :
    scrape_bospop_faq .timeout = none ∧
    scrape_bospop_faq .connError = none ∧
    ∀ status doc, 400 ≤ status → status < 600 →
      scrape_bospop_faq (.completed status doc) = none := by
  refine ⟨rfl, rfl, fun status doc h4 h6 => ?_⟩
  have hrs : raiseForStatus status = true := by
    unfold raiseForStatus
    simp [h4, h6]
  simp [scrape_bospop_faq, hrs]

/-- Claim C7, witness: a 404 response yields `None`. -/
theorem C7_fetch_failure_none_witness :
    scrape_bospop_faq (.completed 404 []) = none :=
  C7_fetch_failure_none.2.2 404 [] (by decide) (by decide)

/-- Claim C8: when the refresh's scrape returns `None` or yields zero records,
the handler only shows an error message: the session state and the cache file
are both left untouched, and the save runs only on the non-empty success
path. -/
theorem C8_failed_refresh_preserves_state (st : AppState) (now : String)
    (w : WriteOutcome) (l : List RawRecord) :
    refreshAction st none now w = st ∧
    (l.length = 0 → refreshAction st (some l) now w = st) := by
  refine ⟨rfl, fun hl => ?_⟩
  have hnil : l = [] := List.length_eq_zero.mp hl
  subst hnil
  rfl

/-- Claim C8, witness: a refresh that scraped zero records changes nothing. -/
theorem C8_failed_refresh_preserves_state_witness :
    refreshAction ⟨⟨none, none⟩, .absent⟩ (some []) "2025-01-01 00:00:00" .ok =
      ⟨⟨none, none⟩, .absent⟩ :=
  (C8_failed_refresh_preserves_state ⟨⟨none, none⟩, .absent⟩
    "2025-01-01 00:00:00" .ok []).2 rfl

/-- Claim C9: an accordion item with a title span but no content node is not
skipped: it yields its stripped question text together with the empty-string
answer. -/
theorem C9_missing_content_empty_answer (item t : Node)
    (ht : (item.descendants.filter isAcTitle).head? = some t)
    (hc : (item.descendants.filter isAcContent).head? = none) :
    extractItem item = some (pyStrip t.rawText, "") := by
  unfold extractItem
  rw [ht, hc]

/-- Claim C9, witness: the concrete item with a title and no content node. -/
theorem C9_missing_content_empty_answer_witness :
    extractItem noContentItem = some ("Q", "") :=
  C9_missing_content_empty_answer noContentItem (titleSpan "Q") rfl rfl

/-- Claim C10: `save_data_to_file` re-raises every write failure instead of
swallowing it, so a cache-write failure during first-load initialization
propagates out of `initialize_session_state`; by contrast
`load_data_from_file` converts its failures to the no-data result. -/
theorem C10_save_reraises (df : List RawRecord) (ts e : String) :
    save_data_to_file df ts (.ioError e) = Except.error e ∧
    initialize_session_state none .absent (some df) ts (.ioError e) =
      Except.error e ∧
    ∀ content, load_data_from_file (.corrupt content) = (none, none) :=
  ⟨rfl, rfl, fun _ => rfl⟩

end BospopFaq
